/-
  Verification development for the Echo-Chat API WebSocket subsystem.

  Shallow embedding of:
    - src/api/ws_workers/ws_worker.py   (framing, validation, dispatch)
    - src/api/ws_workers/admin_worker.py (admin auth state machine)
    - src/api/db/handlers/secure_handler.py (get_password, make_verification_code)
    - src/api/db/handlers/user_handler.py (session_new)

  Python values flowing over the socket are modelled by the `Json` inductive;
  Python exceptions by `PyErr`; the process-wide `admins` / `waitlist`
  dictionaries by association lists keyed by an abstract connection identity.
  Wall-clock instants are integers; all `datetime.now()` calls inside one
  handler invocation are modelled by a single `now` parameter.
-/
import Mathlib

set_option linter.unusedVariables false

/-- JSON-like values as produced by `receive_json` (Python objects). -/
inductive Json where
  | null : Json
  | bool (b : Bool) : Json
  | num (n : Int) : Json
  | str (s : String) : Json
  | arr (xs : List Json) : Json
  | obj (fields : List (String × Json)) : Json

/-- Python exceptions that the embedded code can raise. -/
inductive PyErr where
  | typeError : PyErr
  | keyError : PyErr
  | indexError : PyErr
  | jsonDecodeError : PyErr
deriving DecidableEq

/-- First-match lookup in a JSON object's field list (Python `dict` access;
parsed JSON objects have unique keys, so first-match agrees with `dict`). -/
def jsonLookup (fields : List (String × Json)) (k : String) : Option Json :=
  match fields with
  | [] => none
  | (k', v) :: rest => if k' = k then some v else jsonLookup rest k

/-- Python `field in data` for the values `receive_json` can return:
key membership for dicts, element membership for lists, substring test for
strings; other types raise `TypeError` (`argument of type ... is not iterable`). -/
def pyContains (data : Json) (field : String) : Except PyErr Bool :=
  match data with
  | .obj fs => .ok (jsonLookup fs field).isSome
  | .arr xs => .ok (xs.any (fun x => match x with | .str s => s = field | _ => false))
  | .str s => .ok ((s.splitOn field).length > 1)
  | _ => .error .typeError

/-- Python `data[field]` with a string key: dict lookup (KeyError when
absent), `TypeError` on any non-dict value. -/
def pySubscript (data : Json) (field : String) : Except PyErr Json :=
  match data with
  | .obj fs =>
    match jsonLookup fs field with
    | some v => .ok v
    | none => .error .keyError
  | _ => .error .typeError

/-- The two `field_type` arguments `verify_field` is called with. -/
inductive PyType where
  | str : PyType
  | dict : PyType

/-- Python `isinstance(v, t)` for the two types used. -/
def isinstance (v : Json) (t : PyType) : Bool :=
  match t, v with
  | .str, .str _ => true
  | .dict, .obj _ => true
  | _, _ => false

/-- Embeds `verify_field` (src/api/ws_workers/ws_worker.py): present, not
None, and of the expected type.  The membership test and the subscript can
raise when `data` is not a dict, so the result is in `Except`. -/
def verify_field (data : Json) (field : String) (field_type : PyType) :
    Except PyErr Bool := do
  let present ← pyContains data field
  if !present then
    return false
  let v ← pySubscript data field
  if (match v with | .null => true | _ => false) then
    return false
  return isinstance v field_type

/-- Outcome of `await self.connection.receive_json()` as seen by the
`try/except` in `WsWorker.run`: a clean disconnect, a `KeyError` (raised by
starlette when the frame is not a text frame), any other decode failure
(e.g. `json.JSONDecodeError` on invalid JSON text — NOT caught by the code),
or a decoded Python value. -/
inductive RecvResult where
  | disconnect : RecvResult
  | recvKeyError : RecvResult
  | recvJsonError : RecvResult
  | ok (content : Json) : RecvResult

/-- What one iteration of `WsWorker.run` does with one received frame. -/
inductive StepOutcome where
  | closed : StepOutcome
  | crashed (e : PyErr) : StepOutcome
  | replied (msg : Json) : StepOutcome
  | dispatched (target : String) (data : Json) : StepOutcome

/-- `{"error": msg}` -/
def errObj (msg : String) : Json := .obj [("error", .str msg)]

/-- `{"target": "pong"}` -/
def pongMsg : Json := .obj [("target", .str "pong")]

/-- One iteration of the receive loop in `WsWorker.run`
(src/api/ws_workers/ws_worker.py), translated clause by clause in source
order: the `try/except` around `receive_json` (only `WebSocketDisconnect`
and `KeyError` are caught; any other exception escapes the loop), the
`content == {}` check, the two `verify_field` checks on the envelope, the
ping built-in, the two `verify_field` checks on the inner object, and
finally the hand-off to `direct_message`. -/
def stepRun (r : RecvResult) : StepOutcome :=
  match r with
  | .disconnect => .closed
  | .recvKeyError => .replied (errObj "Invalid data.")
  | .recvJsonError => .crashed .jsonDecodeError
  | .ok content =>
    if (match content with | .obj [] => true | _ => false) then
      .replied (errObj "No data provided.")
    else
      match verify_field content "target" .str with
      | .error e => .crashed e
      | .ok false => .replied (errObj "No target provided or target invalid.")
      | .ok true =>
        match verify_field content "data" .dict with
        | .error e => .crashed e
        | .ok false => .replied (errObj "No data provided or data invalid.")
        | .ok true =>
          if (match pySubscript content "target" with
              | .ok (.str s) => s == "ping"
              | _ => false) then
            .replied pongMsg
          else
            match pySubscript content "data" with
            | .error e => .crashed e
            | .ok data =>
              match verify_field data "action" .str with
              | .error e => .crashed e
              | .ok false => .replied (errObj "No action provided or action invalid.")
              | .ok true =>
                match verify_field data "data" .dict with
                | .error e => .crashed e
                | .ok false => .replied (errObj "No data provided or data invalid.")
                | .ok true =>
                  match pySubscript content "target" with
                  | .error e => .crashed e
                  | .ok (.str t) => .dispatched t data
                  | .ok _ => .crashed .typeError

/-- Key set of the class attribute `WsWorker.workers`
(src/api/ws_workers/ws_worker.py): the literal dict `{"users": UsersWorker}`.
No other assignment to this mapping appears in the worker module. -/
def workerTargets : List String := ["users"]

/-- Result of `WsWorker.direct_message`. -/
inductive DispatchResult where
  | reply (msg : Json) : DispatchResult
  | forwarded (target : String) (data : Json) : DispatchResult

/-- Embeds `WsWorker.direct_message`: unknown target replies
`{"error": "Target not found."}`, a registered target gets the inner
`{action, data}` object. -/
def direct_message (target : String) (data : Json) : DispatchResult :=
  if target ∈ workerTargets then
    .forwarded target data
  else
    .reply (errObj "Target not found.")

/-! ## Admin worker (src/api/ws_workers/admin_worker.py) -/

/-- Connection identity: the `WebSocket` object used as dict key. -/
abbrev Conn : Type := Nat

/-- Wall-clock instants (`datetime`); `+` adds a `timedelta` in seconds. -/
abbrev Time : Type := Int

/-- Byte strings (challenge digests). -/
abbrev Bytes : Type := List Nat

/-- The `CONFIG.auth` fields read by the admin worker.  Configuration loading
is an external collaborator; the values are parameters here.  Durations are
in seconds, matching `timedelta(seconds=...)`. -/
structure AuthConfig where
  max_fail_attempts : Nat
  fail_timeout : Int
  fail_lock_time : Int
  admin_auth_timeout : Int

/-- The two process-wide dictionaries of admin_worker.py: `admins`
(connection ↦ expiry time) and `waitlist` (connection ↦ list of
retry-not-before times), as association lists with unique keys. -/
structure AdminState where
  admins : List (Conn × Time)
  waitlist : List (Conn × List Time)

/-- Dict lookup `d[k]` / membership `k in d`. -/
def alookup {β : Type} (l : List (Conn × β)) (k : Conn) : Option β :=
  match l with
  | [] => none
  | (k', v) :: rest => if k' = k then some v else alookup rest k

/-- Dict deletion `del d[k]` (on a key known to be present). -/
def aerase {β : Type} : List (Conn × β) → Conn → List (Conn × β)
  | [], _ => []
  | (k', v) :: rest, k => if k' = k then aerase rest k else (k', v) :: aerase rest k

/-- Dict update `d[k] = v` (also models in-place `d[k].append(...)`,
which replaces the stored list by the longer one). -/
def aset {β : Type} (l : List (Conn × β)) (k : Conn) (v : β) : List (Conn × β) :=
  (k, v) :: aerase l k

/-- Frames the admin auth flow sends on the socket: the raw encrypted
challenge (content opaque here) or a JSON frame. -/
inductive Msg where
  | binary : Msg
  | json (v : Json) : Msg

/-- Result of `await self.connection.receive_bytes()` in `_auth`. -/
inductive BytesRecv where
  | disconnect : BytesRecv
  | bytes (b : Bytes) : BytesRecv

/-- A handler invocation's observable effect: the new shared state and the
frames sent, either completing normally or with an exception escaping after
those partial effects. -/
inductive HOut where
  | done (st : AdminState) (sent : List Msg) : HOut
  | fault (e : PyErr) (st : AdminState) (sent : List Msg) : HOut

/-- `{"error": "You must wait before trying again."}` -/
def waitErrorMsg : Json := errObj "You must wait before trying again."

/-- `{"target": "admin", "data": {"message": "Authentication failed."}}` -/
def authFailedMsg : Json :=
  .obj [("target", .str "admin"), ("data", .obj [("message", .str "Authentication failed.")])]

/-- `{"message": "Authenticated."}` -/
def authedMsg : Json := .obj [("message", .str "Authenticated.")]

/-- The challenge/verification part of `AdminWorker._auth`, after the
waitlist gate: send the encrypted token, receive the client digest
(disconnect aborts silently with no state change), compare byte-for-byte
with the expected md5 digest (`client_expected`, a parameter abstracting
`md5(token).digest()`), then either record the failure in `waitlist` or
record authentication in `admins`. -/
def auth_verify (cfg : AuthConfig) (st : AdminState) (conn : Conn) (now : Time)
    (client_expected : Bytes) (recv : BytesRecv) : HOut :=
  match recv with
  | .disconnect => .done st [.binary]
  | .bytes client_actual =>
    if client_actual ≠ client_expected then
      let waitlist' :=
        match alookup st.waitlist conn with
        | some times =>
          if times.length ≥ cfg.max_fail_attempts then
            aset st.waitlist conn (times ++ [now + cfg.fail_lock_time])
          else
            aset st.waitlist conn (times ++ [now + cfg.fail_timeout])
        | none => aset st.waitlist conn [now + cfg.fail_timeout]
      .done { st with waitlist := waitlist' } [.binary, .json authFailedMsg]
    else
      .done { st with admins := aset st.admins conn (now + cfg.admin_auth_timeout) }
        [.binary, .json authedMsg]

/-- Embeds `AdminWorker._auth`: first the waitlist gate
`waitlist[conn][max(len(waitlist[conn]) - 1, 0)]` (the last recorded
retry-not-before time; indexing an empty list would raise IndexError),
then the challenge round trip of `auth_verify`. -/
def auth_step (cfg : AuthConfig) (st : AdminState) (conn : Conn) (now : Time)
    (client_expected : Bytes) (recv : BytesRecv) : HOut :=
  match alookup st.waitlist conn with
  | some times =>
    match times.get? (max (times.length - 1) 0) with
    | none => .fault .indexError st []
    | some t =>
      if now < t then
        .done st [.json waitErrorMsg]
      else
        auth_verify cfg st conn now client_expected recv
  | none => auth_verify cfg st conn now client_expected recv

/-- Whether the waitlist gate at the top of `_auth` lets an attempt proceed
to the challenge round trip: no failure record, or the consulted
retry-not-before time (`waitlist[conn][max(len - 1, 0)]`) is not in the
future.  This mirrors the gate condition of `auth_step`. -/
def gate_open (st : AdminState) (conn : Conn) (now : Time) : Bool :=
  match alookup st.waitlist conn with
  | none => true
  | some times =>
    match times.get? (max (times.length - 1) 0) with
    | none => false
    | some t => !(decide (now < t))

/-- `{"error": "Not authenticated."}` -/
def notAuthMsg : Json := errObj "Not authenticated."

/-- `{"action": "logoff", "data": {"success": true}}` -/
def logoffOkMsg : Json :=
  .obj [("action", .str "logoff"), ("data", .obj [("success", .bool true)])]

/-- Embeds `AdminWorker._logoff`: reply "Not authenticated." when the
connection is not in `admins`; otherwise `del admins[conn]` (always
succeeds, membership was just checked) followed by `del waitlist[conn]`,
which raises `KeyError` when the connection has no failure record — the
`admins` deletion has already happened at that point and no reply is sent. -/
def logoff_step (st : AdminState) (conn : Conn) : HOut :=
  if (alookup st.admins conn).isSome then
    let st1 := { st with admins := aerase st.admins conn }
    if (alookup st1.waitlist conn).isSome then
      .done { st1 with waitlist := aerase st1.waitlist conn } [.json logoffOkMsg]
    else
      .fault .keyError st1 []
  else
    .done st [.json notAuthMsg]

/-- The state a handler outcome leaves behind (partial effects included). -/
def HOut.state : HOut → AdminState
  | .done st _ => st
  | .fault _ st _ => st

/-- Events that touch the shared `admins`/`waitlist` maps over a
connection's lifetime: an auth attempt, a logoff, or a transport
disconnect.  A disconnect ends the connection's receive loop
(`WsWorker.run` returns after `connection.close()`, and `_auth` returns
silently when `receive_bytes` raises `WebSocketDisconnect`); no code path
removes the disconnected connection's entries from either map. -/
inductive Event where
  | auth (conn : Conn) (now : Time) (client_expected : Bytes) (recv : BytesRecv) : Event
  | logoff (conn : Conn) : Event
  | disconnect (conn : Conn) : Event

/-- Effect of one event on the shared maps. -/
def stepEvent (cfg : AuthConfig) (st : AdminState) (e : Event) : AdminState :=
  match e with
  | .auth conn now expected recv => (auth_step cfg st conn now expected recv).state
  | .logoff conn => (logoff_step st conn).state
  | .disconnect _ => st

/-- Effect of a sequence of events. -/
def runEvents (cfg : AuthConfig) (st : AdminState) (evs : List Event) : AdminState :=
  match evs with
  | [] => st
  | e :: rest => runEvents cfg (stepEvent cfg st e) rest

/-- Whether an event is a logoff. -/
def Event.isLogoff : Event → Bool
  | .logoff _ => true
  | _ => false

/-! ## Verification codes (src/api/db/handlers/secure_handler.py) -/

/-- A row of `secured.verification_codes` (columns used by the handler). -/
structure VCRow where
  user_id : Nat
  code : String
  expires : Time

/-- The `while 1` loop body of `SecureHandler.make_verification_code`:
generate a candidate `token_urlsafe(256)` code (`gen` abstracts the random
stream, one fresh value per iteration), then run
`SELECT * FROM secured.verification_codes WHERE user_id = %s` — the query
filters on `user_id`, not on the generated code — and break when it returns
no row.  Nothing in the loop writes to the table, so the query's result is
the same every iteration; `fuel` bounds the unrolling, `none` meaning the
loop is still running after `fuel` iterations. -/
def code_loop (db : List VCRow) (user_id : Nat) (gen : Nat → String) :
    Nat → Option String
  | 0 => none
  | fuel + 1 =>
    let code := gen fuel
    if (db.filter (fun r => r.user_id = user_id)).isEmpty then
      some code
    else
      code_loop db user_id gen fuel

/-- Embeds `SecureHandler.make_verification_code`: run the generation loop,
then `DELETE FROM secured.verification_codes WHERE user_id = %s` and insert
the new row.  Returns the updated table and the code, or `none` when the
generation loop has not terminated within `fuel` iterations. -/
def make_verification_code (db : List VCRow) (user_id : Nat) (expires : Time)
    (gen : Nat → String) (fuel : Nat) : Option (List VCRow × String) :=
  match code_loop db user_id gen fuel with
  | none => none
  | some code =>
    some ((db.filter (fun r => r.user_id ≠ user_id)) ++ [⟨user_id, code, expires⟩], code)

/-! ## Passwords and login (secure_handler.py / user_handler.py) -/

/-- A row of `secured.passwords` (columns stored by `set_password`). -/
structure PwRow where
  user_id : Nat
  hash : String
  last_updated : Time

/-- A value in a fetched row. -/
inductive RowVal where
  | vstr (s : String) : RowVal
  | vtime (t : Time) : RowVal

/-- Row access `row[key]`: KeyError when the selected columns do not
include `key`. -/
def rowGet (row : List (String × RowVal)) (key : String) : Except PyErr RowVal :=
  match row with
  | [] => .error .keyError
  | (k, v) :: rest => if k = key then .ok v else rowGet rest key

/-- The `Password` model (src/api/models/secure.py usage in the handler). -/
structure Password where
  hash : RowVal
  last_updated : RowVal

/-- Embeds `SecureHandler.get_password`: the query
`SELECT hash, last_updated FROM secured.passwords WHERE user_id = %s`
yields a row with keys `hash` and `last_updated` (or `None`); the code then
builds `Password(hash=row["password"], ...)` — it reads key `"password"`,
which is not among the selected columns, so whenever a row exists the
access raises `KeyError`. -/
def get_password (db : List PwRow) (user_id : Nat) : Except PyErr (Option Password) :=
  match db.find? (fun r => r.user_id = user_id) with
  | none => .ok none
  | some r =>
    let row : List (String × RowVal) :=
      [("hash", .vstr r.hash), ("last_updated", .vtime r.last_updated)]
    match rowGet row "password", rowGet row "last_updated" with
    | .ok h, .ok lu => .ok (some ⟨h, lu⟩)
    | .error e, _ => .error e
    | _, .error e => .error e

/-- A row of `users` (columns used by `session_new`). -/
structure UserRow where
  id : Nat
  email : String

/-- Outcome of `UsersHandler.session_new`. -/
inductive SessionNewResult where
  | token (user_id : Nat) : SessionNewResult
  | userDoesNotExist : SessionNewResult
  | passwordIncorrect : SessionNewResult
  | raised (e : PyErr) : SessionNewResult

/-- Embeds `UsersHandler.session_new` (user_handler.py): check
`email_exists` (raise `UserDoesNotExist` when absent), fetch the user, then
evaluate `await self.secure.verify_password(password, await
self.secure.get_password())`.  The source calls `get_password()` without
its required `user_id` argument, which in Python raises `TypeError` while
evaluating the arguments — before `verify_password` runs and before any
token is issued.  (Supplying the argument would not help: `get_password`
itself raises `KeyError` on the `row["password"]` access whenever the user
has a stored password, and `verify_password` is not a coroutine, so
awaiting its result raises a further `TypeError`.) -/
def session_new (users : List UserRow) (email password : String) : SessionNewResult :=
  match users.find? (fun u => u.email = email) with
  | none => .userDoesNotExist
  | some _ => .raised .typeError

/-! ## Helper lemmas -/

/-- Erasing one key leaves lookups of other keys unchanged. -/
theorem alookup_aerase_ne {β : Type} (l : List (Conn × β)) (k c : Conn) (h : c ≠ k) :
    alookup (aerase l k) c = alookup l c := by
  induction l with
  | nil => rfl
  | cons p rest ih =>
    obtain ⟨k', v⟩ := p
    simp only [aerase]
    by_cases hk : k' = k
    · rw [if_pos hk, ih]
      simp only [alookup]
      rw [if_neg (fun hkc : k' = c => h (hkc.symm.trans hk))]
    · rw [if_neg hk]
      simp only [alookup, ih]

/-- A dict update never removes a key: any key present before `d[k] = v`
is present after. -/
theorem alookup_aset_isSome {β : Type} (l : List (Conn × β)) (k c : Conn) (v : β)
    (h : (alookup l c).isSome) : (alookup (aset l k v) c).isSome := by
  by_cases hk : k = c
  · simp [aset, alookup, hk]
  · have hc : c ≠ k := fun hck => hk hck.symm
    simp [aset, alookup, hk, alookup_aerase_ne _ _ _ hc, h]

/-- The state left by the challenge/verification part of `_auth` never
loses a key of either shared map (it only adds or overwrites entries). -/
theorem auth_verify_preserves_keys (cfg : AuthConfig) (st : AdminState) (conn : Conn)
    (now : Time) (expected : Bytes) (recv : BytesRecv) (c : Conn) :
    ((alookup st.admins c).isSome →
      (alookup ((auth_verify cfg st conn now expected recv).state).admins c).isSome)
    ∧ ((alookup st.waitlist c).isSome →
      (alookup ((auth_verify cfg st conn now expected recv).state).waitlist c).isSome) := by
  unfold auth_verify
  split
  · exact ⟨fun h => h, fun h => h⟩
  · dsimp only
    split
    · split
      · split
        · exact ⟨fun h => h, fun h => alookup_aset_isSome _ _ _ _ h⟩
        · exact ⟨fun h => h, fun h => alookup_aset_isSome _ _ _ _ h⟩
      · exact ⟨fun h => h, fun h => alookup_aset_isSome _ _ _ _ h⟩
    · exact ⟨fun h => alookup_aset_isSome _ _ _ _ h, fun h => h⟩

/-- The state left by one `_auth` invocation never loses a key of either
shared map. -/
theorem auth_step_preserves_keys (cfg : AuthConfig) (st : AdminState) (conn : Conn)
    (now : Time) (expected : Bytes) (recv : BytesRecv) (c : Conn) :
    ((alookup st.admins c).isSome →
      (alookup ((auth_step cfg st conn now expected recv).state).admins c).isSome)
    ∧ ((alookup st.waitlist c).isSome →
      (alookup ((auth_step cfg st conn now expected recv).state).waitlist c).isSome) := by
  unfold auth_step
  split
  · split
    · exact ⟨fun h => h, fun h => h⟩
    · split
      · exact ⟨fun h => h, fun h => h⟩
      · exact auth_verify_preserves_keys cfg st conn now expected recv c
  · exact auth_verify_preserves_keys cfg st conn now expected recv c

/-! ## Claim theorems -/

/-- Claim C1 (counterexample): a valid envelope with target `"admin"` is
NOT forwarded: `direct_message` answers `{"error": "Target not found."}`
for the concrete inner object `{"action": "auth", "data": {}}`, because
`WsWorker.workers` registers only `"users"`. -/
theorem C1_admin_not_forwarded_cex :
    direct_message "admin" (.obj [("action", .str "auth"), ("data", .obj [])]) =
      .reply (errObj "Target not found.")
    ∧ direct_message "admin" (.obj [("action", .str "auth"), ("data", .obj [])]) ≠
      .forwarded "admin" (.obj [("action", .str "auth"), ("data", .obj [])]) :=
  ⟨rfl, fun h => nomatch h⟩

/-- Claim C1 (amended): for every inner payload, `direct_message` with
target `"admin"` replies `{"error": "Target not found."}` — `"admin"` is
not a key of the router's worker mapping, whose only registered target is
`"users"`. -/
theorem C1_admin_target_not_found (data : Json) :
    direct_message "admin" data = .reply (errObj "Target not found.") := rfl

/-- Claim C2 (code evaluated at the failing input): when the user already
has a live verification code (a `secured.verification_codes` row with that
`user_id`), the generation loop of `make_verification_code` never breaks —
its uniqueness query filters on `user_id`, not on the freshly generated
code — so the call does not terminate: for every fuel bound and every
random stream the unrolled loop is still running. -/
theorem C2_make_verification_code_diverges (db : List VCRow) (user_id : Nat)
    (expires : Time) (gen : Nat → String) (fuel : Nat)
    (h : (db.filter (fun r => r.user_id = user_id)).isEmpty = false) :
    make_verification_code db user_id expires gen fuel = none := by
  have hloop : ∀ f, code_loop db user_id gen f = none := by
    intro f
    induction f with
    | zero => rfl
    | succ n ih => simp [code_loop, h, ih]
  simp [make_verification_code, hloop]

/-- Witness for C2: a user (id 7) with one live code; the call returns no
result for fuel 5 (and, by the theorem, for any fuel). -/
theorem C2_witness :
    (([⟨7, "old", 99⟩] : List VCRow).filter (fun r => r.user_id = 7)).isEmpty = false
    ∧ make_verification_code [⟨7, "old", 99⟩] 7 0 (fun _ => "fresh") 5 = none :=
  ⟨rfl, C2_make_verification_code_diverges _ _ _ _ _ rfl⟩

/-- Claim C4 (code evaluated at the failing input): a connection whose
`admins` entry has expiry 5, consulted at any later time (e.g. now = 10),
is still treated as authenticated by `_logoff`: the handler checks only
membership in `admins`, never the stored expiry (which no code path
reads), so it replies `{"action": "logoff", "data": {"success": true}}`
instead of `{"error": "Not authenticated."}`. -/
theorem C4_logoff_ignores_expiry :
    ((5 : Time) < 10)
    ∧ logoff_step ⟨[(0, 5)], [(0, [3])]⟩ 0 = .done ⟨[], []⟩ [.json logoffOkMsg]
    ∧ logoffOkMsg ≠ notAuthMsg :=
  ⟨by decide, rfl, by simp [logoffOkMsg, notAuthMsg, errObj]⟩

/-- Claim C5 (code evaluated at the failing input): a connection recorded
as authenticated (expiry 50) that never failed an attempt has no
`waitlist` entry; `_logoff` then raises `KeyError` at
`del waitlist[self.connection]` — after having already deleted the
`admins` entry — and sends no reply at all. -/
theorem C5_logoff_keyerror_without_failure_record :
    logoff_step ⟨[(0, 50)], []⟩ 0 = .fault .keyError ⟨[], []⟩ []
    ∧ logoff_step ⟨[], []⟩ 0 = .done ⟨[], []⟩ [.json notAuthMsg]
    ∧ logoff_step ⟨[(1, 50)], [(1, [9])]⟩ 1 = .done ⟨[], []⟩ [.json logoffOkMsg] :=
  ⟨rfl, rfl, rfl⟩

/-- Claim C6 (counterexample): the frame `{"target": "ping"}` with no other
fields is answered with `{"error": "No data provided or data invalid."}`,
not `{"target": "pong"}` — `WsWorker.run` validates the `data` field before
it reaches the ping check. -/
theorem C6_bare_ping_not_pong_cex :
    stepRun (.ok (.obj [("target", .str "ping")])) =
      .replied (errObj "No data provided or data invalid.")
    ∧ stepRun (.ok (.obj [("target", .str "ping")])) ≠ .replied pongMsg :=
  ⟨rfl, by
    rw [show stepRun (.ok (.obj [("target", .str "ping")])) =
      .replied (errObj "No data provided or data invalid.") from rfl]
    simp [errObj, pongMsg]⟩

/-- Claim C6 (amended): a frame whose target is `"ping"` and that also
carries a (possibly empty) object `data` field is answered with exactly
`{"target": "pong"}` and is not routed to any handler; a bare
`{"target": "ping"}` instead gets the data-field validation error. -/
theorem C6_ping_with_data_pongs (fs : List (String × Json)) :
    stepRun (.ok (.obj [("target", .str "ping"), ("data", .obj fs)])) =
      .replied pongMsg := rfl

/-- Claim C7 (code evaluated at the failing input): the empty object is
answered with "No data provided." before any field check, and a frame
raising `KeyError` in `receive_json` (a non-text frame) is answered with
"Invalid data." with the loop continuing; but a text frame with invalid
JSON raises `json.JSONDecodeError`, which the `try/except` does not catch,
and a frame decoding to a JSON number makes `verify_field` raise
`TypeError` — both escape the loop and crash the connection. -/
theorem C7_decode_failure_crashes :
    stepRun (.ok (.obj [])) = .replied (errObj "No data provided.")
    ∧ stepRun .recvKeyError = .replied (errObj "Invalid data.")
    ∧ stepRun .recvJsonError = .crashed .jsonDecodeError
    ∧ stepRun (.ok (.num 5)) = .crashed .typeError :=
  ⟨rfl, rfl, rfl, rfl⟩

/-- Claim C8 (code evaluated at the failing input): for a registered user
with a stored password, `session_new` raises `TypeError` (it calls
`get_password()` without the required `user_id` argument) instead of
verifying the password and issuing a token or raising password-incorrect;
and `get_password` itself, given the user id, raises `KeyError` on the
`row["password"]` access because the query selects `hash, last_updated`.
Only the absent-email branch behaves as specified. -/
theorem C8_login_always_raises :
    session_new [⟨7, "a@b.c"⟩] "a@b.c" "correct-password" = .raised .typeError
    ∧ session_new [⟨7, "a@b.c"⟩] "x@y.z" "pw" = .userDoesNotExist
    ∧ get_password [⟨7, "stored-hash", 0⟩] 7 = .error .keyError :=
  ⟨rfl, rfl, rfl⟩

/-- Claim C9: with a non-empty failure record `ts ++ [tlast]`, the `_auth`
gate consults the last recorded retry-not-before timestamp `tlast`
(indexing `waitlist[conn][max(len - 1, 0)]`): while `tlast` is in the
future the handler replies `{"error": "You must wait before trying
again."}` with the state unchanged, and once `tlast` has passed the
attempt proceeds to the challenge round trip — regardless of the earlier
timestamps `ts`. -/
theorem C9_auth_gate_uses_last_timestamp (cfg : AuthConfig) (st : AdminState)
    (conn : Conn) (now : Time) (expected : Bytes) (recv : BytesRecv)
    (ts : List Time) (tlast : Time)
    (hw : alookup st.waitlist conn = some (ts ++ [tlast])) :
    (now < tlast →
      auth_step cfg st conn now expected recv = .done st [.json waitErrorMsg])
    ∧ (¬ now < tlast →
      auth_step cfg st conn now expected recv =
        auth_verify cfg st conn now expected recv) := by
  have hidx : (ts ++ [tlast]).get? (max ((ts ++ [tlast]).length - 1) 0) = some tlast := by
    simp [List.get?_eq_getElem?]
  unfold auth_step
  rw [hw]
  dsimp only
  rw [hidx]
  constructor <;> intro h
  · simp only [if_pos h]
  · simp only [if_neg h]

/-- Witness for C9: a record `[1, 20]` whose first timestamp has passed but
whose last (20) is still in the future at now = 5: the attempt is refused
with the wait error and no state change. -/
theorem C9_witness :
    alookup (AdminState.mk [] [(0, [1, 20])]).waitlist 0 = some ([1] ++ [20])
    ∧ (5 : Time) < 20
    ∧ auth_step ⟨2, 10, 100, 50⟩ ⟨[], [(0, [1, 20])]⟩ 0 5 [1] (.bytes [2]) =
        .done ⟨[], [(0, [1, 20])]⟩ [.json waitErrorMsg] :=
  ⟨rfl, by decide,
    (C9_auth_gate_uses_last_timestamp ⟨2, 10, 100, 50⟩ ⟨[], [(0, [1, 20])]⟩
      0 5 [1] (.bytes [2]) [1] 20 rfl).1 (by decide)⟩

/-- Claim C3: a failed attempt (received digest differs from the expected
digest) that passed the waitlist gate is answered with
`{"target": "admin", "data": {"message": "Authentication failed."}}`, and
the connection's failure record gets one appended timestamp: `now +
fail_lock_time` when the existing failure count has already reached
`max_fail_attempts`, and `now + fail_timeout` otherwise (a connection with
no record yet gets a fresh one-element record); `admins` is untouched, so
the connection remains unauthenticated.  (`max_fail_attempts` is assumed
positive, as any meaningful lockout threshold is.) -/
theorem C3_auth_failure_appends_timestamp (cfg : AuthConfig) (st : AdminState)
    (conn : Conn) (now : Time) (expected actual : Bytes)
    (hmax : 0 < cfg.max_fail_attempts)
    (hgate : gate_open st conn now = true)
    (hmis : actual ≠ expected) :
    auth_step cfg st conn now expected (.bytes actual) =
      .done { st with waitlist := (aset st.waitlist conn
          (((alookup st.waitlist conn).getD []) ++
            [now + (if cfg.max_fail_attempts ≤ ((alookup st.waitlist conn).getD []).length
                    then cfg.fail_lock_time else cfg.fail_timeout)])) }
        [.binary, .json authFailedMsg] := by
  unfold gate_open at hgate
  unfold auth_step
  cases hwl : alookup st.waitlist conn with
  | none =>
    dsimp only
    unfold auth_verify
    simp only [if_pos hmis, hwl]
    have hnot : ¬ cfg.max_fail_attempts ≤ 0 := by omega
    simp [hnot]
  | some times =>
    rw [hwl] at hgate
    dsimp only at hgate ⊢
    cases hg : times.get? (max (times.length - 1) 0) with
    | none => rw [hg] at hgate; simp at hgate
    | some t =>
      rw [hg] at hgate
      dsimp only at hgate ⊢
      have hnlt : ¬ now < t := by simpa using hgate
      rw [if_neg hnlt]
      unfold auth_verify
      simp only [if_pos hmis, hwl]
      by_cases hlen : times.length ≥ cfg.max_fail_attempts
      · simp [hlen]
      · rw [if_neg hlen]
        have hnle : ¬ cfg.max_fail_attempts ≤ times.length := hlen
        simp [hnle]

/-- Witness for C3: a connection whose two prior failures have reached
`max_fail_attempts = 2`, retrying after the backoff (now = 5 ≥ 2) with a
wrong digest: the record grows by `now + fail_lock_time = 105`. -/
theorem C3_witness :
    0 < (2 : Nat)
    ∧ gate_open ⟨[], [(0, [1, 2])]⟩ 0 5 = true
    ∧ ([2] : Bytes) ≠ [1]
    ∧ auth_step ⟨2, 10, 100, 50⟩ ⟨[], [(0, [1, 2])]⟩ 0 5 [1] (.bytes [2]) =
        .done ⟨[], [(0, [1, 2, 105])]⟩ [.binary, .json authFailedMsg] :=
  ⟨by decide, by decide, by decide,
    C3_auth_failure_appends_timestamp ⟨2, 10, 100, 50⟩ ⟨[], [(0, [1, 2])]⟩ 0 5 [1] [2]
      (by decide) (by decide) (by decide)⟩

/-- Claim C10: the shared `admins` and `waitlist` maps are only ever shrunk
by the logoff action: a transport disconnect changes neither map, an auth
attempt only adds or overwrites entries, and therefore after any sequence
of events containing no logoff, every connection's entries present before
are still present. -/
theorem C10_maps_shrink_only_on_logoff (cfg : AuthConfig) (evs : List Event)
    (st : AdminState) (c : Conn)
    (hno : evs.all (fun e => !e.isLogoff) = true) :
    (∀ c' : Conn, stepEvent cfg st (.disconnect c') = st)
    ∧ ((alookup st.admins c).isSome →
        (alookup (runEvents cfg st evs).admins c).isSome)
    ∧ ((alookup st.waitlist c).isSome →
        (alookup (runEvents cfg st evs).waitlist c).isSome) := by
  refine ⟨fun _ => rfl, ?_⟩
  induction evs generalizing st with
  | nil => exact ⟨fun h => h, fun h => h⟩
  | cons e rest ih =>
    rw [List.all_cons, Bool.and_eq_true] at hno
    obtain ⟨h1, h2⟩ := hno
    have hstep : ((alookup st.admins c).isSome →
          (alookup ((stepEvent cfg st e).admins) c).isSome)
        ∧ ((alookup st.waitlist c).isSome →
          (alookup ((stepEvent cfg st e).waitlist) c).isSome) := by
      cases e with
      | auth conn now expected recv =>
        exact auth_step_preserves_keys cfg st conn now expected recv c
      | logoff conn => simp [Event.isLogoff] at h1
      | disconnect conn => exact ⟨fun h => h, fun h => h⟩
    have hrest := ih (stepEvent cfg st e) h2
    exact ⟨fun h => hrest.1 (hstep.1 h), fun h => hrest.2 (hstep.2 h)⟩

/-- Witness for C10: one failed auth attempt followed by a disconnect (no
logoff): the connection's waitlist entry created before is still present
afterwards. -/
theorem C10_witness :
    (([Event.auth 0 5 [1] (.bytes [2]), Event.disconnect 0] : List Event).all
      (fun e => !e.isLogoff)) = true
    ∧ (alookup (AdminState.mk [(0, 7)] [(0, [1])]).admins 0).isSome
    ∧ (alookup (runEvents ⟨2, 10, 100, 50⟩ ⟨[(0, 7)], [(0, [1])]⟩
        [Event.auth 0 5 [1] (.bytes [2]), Event.disconnect 0]).admins 0).isSome :=
  ⟨by decide, by decide,
    (C10_maps_shrink_only_on_logoff ⟨2, 10, 100, 50⟩
      [Event.auth 0 5 [1] (.bytes [2]), Event.disconnect 0]
      ⟨[(0, 7)], [(0, [1])]⟩ 0 (by decide)).2.1 (by decide)⟩
